import Mathlib

/-!
Shallow embedding of the Lilia donation-tracking backend (src/server.js).

The server keeps two tables: an append-only `donations` ledger (amount,
numbers stored as a comma-separated string, method, donor fields, a
serial id and a creation timestamp) and a singleton `state` row (goal,
bio).  We model the ledger as a list of donation records in insertion
order (the record at index i has serial id i+1) together with an
optional settings row, and translate each HTTP handler into a pure
function on that state.
-/

/-- A JSON value submitted where the server will later cast to a Postgres
int: either an actual integer, or some other JSON value (a non-integer
number, a non-numeric string, null, ...) whose cast `::int` fails. -/
inductive JVal where
  | jint (n : Int)
  | jnonint (tag : String)
deriving DecidableEq, Repr

/-- The Postgres `::int` cast of one submitted value. -/
def toInt? : JVal → Option Int
  | .jint n => some n
  | .jnonint _ => none

/-- The Postgres `$1::int[]` cast of the submitted numbers array:
fails as soon as one element is not an integer. -/
def toIntList : List JVal → Option (List Int)
  | [] => some []
  | v :: vs =>
    match toInt? v, toIntList vs with
    | some n, some ns => some (n :: ns)
    | _, _ => none

/-- One row of the `donations` table (src/server.js lines 52-61); the
comma-separated `numbers` column is modelled as the list of integers it
encodes, and `created_at` as an abstract timestamp. -/
structure Donation where
  amount : Int
  numbers : List Int
  method : String
  donor_name : String
  donor_phone : String
  donor_address : String
  created_at : Nat
deriving DecidableEq, Repr

/-- The singleton `state` row (src/server.js lines 64-70). -/
structure Settings where
  goal : Int
  bio : String
deriving DecidableEq, Repr

/-- The whole persisted state: the donations in insertion order (index i
has serial id i+1) and the optional singleton settings row. -/
structure Ledger where
  donations : List Donation
  settings : Option Settings
deriving DecidableEq, Repr

/-- All numbers occurring in stored donation records, with multiplicity:
the unnest of `string_to_array(numbers, ',')` over every row
(src/server.js lines 86-89 and 112-115). -/
def allNumbers (led : Ledger) : List Int :=
  led.donations.flatMap (fun d => d.numbers)

/-- The JSON body returned by GET /api/state. -/
structure StateResp where
  raised : Int
  donationCount : Nat
  goal : Int
  bio : String
  takenNumbers : List Int
deriving DecidableEq, Repr

/-- GET /api/state (src/server.js lines 82-101): `raised` is
`coalesce(sum(amount),0)`, `donationCount` is `count(*)`, `takenNumbers`
is the grouped (hence deduplicated) unnest of all stored numbers, and
goal/bio fall back to 3500 and the empty string when the settings row is
absent (the `st[0]?.goal ?? 3500` and `st[0]?.bio ?? ""` accesses). -/
def getState (led : Ledger) : StateResp :=
  { raised := (led.donations.map (fun d => d.amount)).sum
    donationCount := led.donations.length
    goal := match led.settings with | some s => s.goal | none => 3500
    bio := match led.settings with | some s => s.bio | none => ""
    takenNumbers := (allNumbers led).dedup }

/-- The body of POST /api/donations, with the fields the handler
destructures.  `numbers` is `none` when the submitted value is not an
array; donor fields model the JS falsy check by the empty string. -/
structure DonationReq where
  amount : JVal
  numbers : Option (List JVal)
  method : String
  donorName : String
  donorPhone : String
  donorAddress : String
deriving DecidableEq, Repr

/-- The response of POST /api/donations: 400 with a message, 409 with
the conflicting numbers, 201, or the generic 500 produced by the final
error handler when a query throws. -/
inductive DonationResult where
  | badRequest (msg : String)
  | conflictResp (conflicts : List Int)
  | created
  | serverError
deriving DecidableEq, Repr

/-- The method whitelist check of src/server.js line 108. -/
def validMethod (m : String) : Bool :=
  ["venmo", "cashapp", "paypal", "zelle", "manual"].contains m

/-- POST /api/donations (src/server.js lines 103-140).  Validation in
source order: numbers must be a non-empty array (line 106, elements not
inspected), amount a positive integer (line 107), method whitelisted
(line 108), donor fields non-empty (line 109).  Then the conflict query
casts the submitted array to int[] — a non-integer element makes the
query throw, surfacing as a 500 — and returns the stored numbers that
occur in it; the handler answers 409 with the submitted numbers that are
already stored, else inserts the record and answers 201. -/
def recordDonation (led : Ledger) (req : DonationReq) (now : Nat) :
    DonationResult × Ledger :=
  match req.numbers with
  | none => (.badRequest "numbers[] required", led)
  | some nl =>
    if nl.isEmpty then (.badRequest "numbers[] required", led)
    else
      match req.amount with
      | .jnonint _ => (.badRequest "invalid amount", led)
      | .jint a =>
        if a ≤ 0 then (.badRequest "invalid amount", led)
        else if !validMethod req.method then (.badRequest "invalid method", led)
        else if req.donorName == "" || req.donorPhone == "" || req.donorAddress == "" then
          (.badRequest "donor info required", led)
        else
          match toIntList nl with
          | none => (.serverError, led)
          | some ns =>
            let conflicts := ns.filter (fun n => (allNumbers led).contains n)
            if conflicts.isEmpty then
              (.created,
               { led with donations := led.donations ++
                   [{ amount := a, numbers := ns, method := req.method,
                      donor_name := req.donorName, donor_phone := req.donorPhone,
                      donor_address := req.donorAddress, created_at := now }] })
            else (.conflictResp conflicts, led)

/-- src/server.js lines 75-77: a missing `x-admin-key` header is coerced
to the empty string before the exact `===` comparison with the
configured admin password. -/
def isAuthed (secret : String) (key : Option String) : Bool :=
  (key.getD "") == secret

/-- The leading decimal digits of a character list, if any (the digit
scan inside JS `parseInt`). -/
def parseDigits (cs : List Char) : Option Nat :=
  let ds := cs.takeWhile (fun c => c.isDigit)
  if ds.isEmpty then none
  else some (ds.foldl (fun a c => a * 10 + (c.toNat - 48)) 0)

/-- JS `parseInt(s, 10)`: skip leading whitespace, read an optional
sign, then the longest prefix of digits; NaN (here `none`) when no digit
follows. -/
def jsParseInt (s : String) : Option Int :=
  match s.toList.dropWhile (fun c => c.isWhitespace) with
  | '-' :: rest => (parseDigits rest).map (fun n => -(n : Int))
  | '+' :: rest => (parseDigits rest).map (fun n => (n : Int))
  | cs => (parseDigits cs).map (fun n => (n : Int))

/-- `parseInt(goal, 10) || 3500` (src/server.js line 163): the fallback
fires on NaN and also on a parsed 0, both falsy in JS. -/
def goalOrDefault (g : String) : Int :=
  match jsParseInt g with
  | some n => if n = 0 then 3500 else n
  | none => 3500

/-- The response of POST /api/admin/state. -/
inductive UpdateResult where
  | unauthorized
  | ok
deriving DecidableEq, Repr

/-- The body and header of POST /api/admin/state: the admin key header
(absent allowed) and the optional bio and goal fields, each modelled as
the string the handler coerces it to. -/
structure AdminStateReq where
  key : Option String
  bio : Option String
  goal : Option String
deriving DecidableEq, Repr

/-- POST /api/admin/state (src/server.js lines 158-166): after the auth
check, `update state set bio=... where id=1` and then
`update state set goal=... where id=1`; each UPDATE touches the settings
row only if it exists. -/
def updateState (secret : String) (req : AdminStateReq) (led : Ledger) :
    UpdateResult × Ledger :=
  if !isAuthed secret req.key then (.unauthorized, led)
  else
    let s1 := match req.bio with
      | none => led.settings
      | some b => led.settings.map (fun s => { s with bio := b })
    let s2 := match req.goal with
      | none => s1
      | some g => s1.map (fun s => { s with goal := goalOrDefault g })
    (.ok, { led with settings := s2 })

/-- The header row emitted by csv-stringify from the object keys built
at src/server.js lines 146-150. -/
def csvHeader : List String :=
  ["id", "amount", "numbers", "method", "donor_name", "donor_phone",
   "donor_address", "created_at"]

/-- One CSV data row in the column order of the object literal at
src/server.js lines 146-150; the stored `numbers` column is the
comma-join of the record's numbers (line 121). -/
def csvRow (serial : Nat) (d : Donation) : List String :=
  [toString serial, toString d.amount,
   String.intercalate "," (d.numbers.map toString),
   d.method, d.donor_name, d.donor_phone, d.donor_address,
   toString d.created_at]

/-- The full CSV (as structured rows): header, then every donation row,
ordered by id descending (`order by id desc`, line 145), the record at
insertion index i carrying serial id i+1. -/
def csvRows (led : Ledger) : List (List String) :=
  csvHeader :: ((led.donations.enumFrom 1).map (fun p => csvRow p.1 p.2)).reverse

/-- The response of GET /api/export.csv. -/
inductive CsvResult where
  | unauthorized
  | csv (rows : List (List String))
deriving DecidableEq, Repr

/-- GET /api/export.csv (src/server.js lines 142-156). -/
def exportCsv (secret : String) (key : Option String) (led : Ledger) : CsvResult :=
  if isAuthed secret key then .csv (csvRows led) else .unauthorized

/-- A sequence of POST /api/donations requests (each with its server
timestamp) applied in order. -/
def runDonations (reqs : List (DonationReq × Nat)) (led : Ledger) : Ledger :=
  reqs.foldl (fun l p => (recordDonation l p.1 p.2).2) led

/-- A sample stored donation record, used to instantiate theorems. -/
def sampleDonation : Donation :=
  { amount := 10, numbers := [3, 7], method := "venmo", donor_name := "A",
    donor_phone := "1", donor_address := "X", created_at := 0 }

/-- A sample valid donation request claiming numbers 7 and 9. -/
def sampleReq : DonationReq :=
  { amount := .jint 16, numbers := some [.jint 7, .jint 9], method := "venmo",
    donorName := "A", donorPhone := "1", donorAddress := "X" }

/-- A sample ledger holding one donation and a settings row. -/
def sampleLedger : Ledger :=
  { donations := [sampleDonation], settings := some { goal := 3500, bio := "hi" } }

/-- The check of src/server.js line 106 as a predicate: the submitted
numbers value is an array and is non-empty.  Elements are not inspected. -/
def numbersOk (req : DonationReq) : Bool :=
  match req.numbers with
  | some nl => !nl.isEmpty
  | none => false

/-- The check of src/server.js line 107 as a predicate: the submitted
amount is an integer and is positive. -/
def amountOk (req : DonationReq) : Bool :=
  match req.amount with
  | .jint a => decide (0 < a)
  | .jnonint _ => false

/-- The check of src/server.js line 109 as a predicate: all three donor
fields are truthy (non-empty). -/
def donorOk (req : DonationReq) : Bool :=
  !(req.donorName == "" || req.donorPhone == "" || req.donorAddress == "")

/-- The empty ledger: no donations, no settings row. -/
def emptyLedger : Ledger := { donations := [], settings := none }

/-- A request that is well-formed except that its numbers array holds a
non-integer element. -/
def nonIntReq : DonationReq :=
  { amount := .jint 5, numbers := some [.jint 2, .jnonint "two-point-five"],
    method := "venmo", donorName := "A", donorPhone := "1", donorAddress := "X" }

/-- A request that is well-formed except for a non-integer amount. -/
def badAmountReq : DonationReq :=
  { amount := .jnonint "ten-ish", numbers := some [.jint 1], method := "venmo",
    donorName := "A", donorPhone := "1", donorAddress := "X" }

/-- A well-formed request claiming the out-of-range number 999. -/
def bigNumReq : DonationReq :=
  { amount := .jint 999, numbers := some [.jint 999], method := "venmo",
    donorName := "A", donorPhone := "1", donorAddress := "X" }

/-- A ledger with no donations and a settings row with goal 100. -/
def settingsLedger : Ledger :=
  { donations := [], settings := some { goal := 100, bio := "b" } }

/-- An authenticated admin request setting goal to the string 0. -/
def goalZeroReq : AdminStateReq := { key := some "k", bio := none, goal := some "0" }

/-- Whether a response is a 400 validation rejection. -/
def DonationResult.isBadRequest : DonationResult → Bool
  | .badRequest _ => true
  | _ => false

/-! ### Supporting lemmas -/

theorem toIntList_map_jint (ns : List Int) : toIntList (ns.map JVal.jint) = some ns := by
  induction ns with
  | nil => rfl
  | cons n ns ih => simp [toIntList, toInt?, ih]

theorem toIntList_length (nl : List JVal) (ns : List Int) (h : toIntList nl = some ns) :
    ns.length = nl.length := by
  induction nl generalizing ns with
  | nil =>
    simp only [toIntList, Option.some.injEq] at h
    simp [← h]
  | cons v vs ih =>
    cases hv : toInt? v with
    | none => simp [toIntList, hv] at h
    | some n =>
      cases hvs : toIntList vs with
      | none => simp [toIntList, hv, hvs] at h
      | some ms =>
        simp only [toIntList, hv, hvs, Option.some.injEq] at h
        simp [← h, ih ms hvs]

theorem mem_allNumbers (led : Ledger) (n : Int) :
    n ∈ allNumbers led ↔ ∃ d ∈ led.donations, n ∈ d.numbers := by
  simp [allNumbers, List.mem_flatMap]

/-! ### C2 -/

/-- C2: GET /api/state returns `raised` equal to the sum of `amount` over
all donation records (0 when there are none, since the empty sum is 0),
`donationCount` equal to the number of records, `takenNumbers` equal as a
set to the union of the records' numbers with duplicates collapsed, and,
when the singleton settings record is absent, goal 3500 and empty bio. -/
theorem getState_spec (led : Ledger) :
    (getState led).raised = (led.donations.map (fun d => d.amount)).sum ∧
    (getState led).donationCount = led.donations.length ∧
    (∀ n : Int, n ∈ (getState led).takenNumbers ↔ ∃ d ∈ led.donations, n ∈ d.numbers) ∧
    (getState led).takenNumbers.Nodup ∧
    (led.settings = none → (getState led).goal = 3500 ∧ (getState led).bio = "") := by
  refine ⟨rfl, rfl, ?_, ?_, ?_⟩
  · intro n
    rw [show (getState led).takenNumbers = (allNumbers led).dedup from rfl,
      List.mem_dedup]
    exact mem_allNumbers led n
  · exact List.nodup_dedup _
  · intro h
    simp [getState, h]

theorem getState_spec_witness :
    (getState { donations := [sampleDonation], settings := none }).goal = 3500 ∧
    (getState { donations := [sampleDonation], settings := none }).bio = "" :=
  (getState_spec { donations := [sampleDonation], settings := none }).2.2.2.2 rfl

/-! ### C1 -/

/-- C1: when a donation request that passes validation claims at least
one number already present in a stored record, POST /api/donations
answers 409 with `conflicts` listing exactly the submitted numbers that
are already taken, the ledger is unchanged (no record written), and the
aggregate state of GET /api/state is therefore unchanged. -/
theorem recordDonation_conflict_spec (led : Ledger) (req : DonationReq) (now : Nat)
    (nl : List JVal) (ns : List Int) (a : Int)
    (hnl : req.numbers = some nl) (hne : nl.isEmpty = false)
    (hns : toIntList nl = some ns)
    (ha : req.amount = .jint a) (hpos : 0 < a)
    (hm : validMethod req.method = true)
    (hdn : req.donorName ≠ "") (hdp : req.donorPhone ≠ "") (hda : req.donorAddress ≠ "")
    (hconf : ∃ n ∈ ns, n ∈ allNumbers led) :
    recordDonation led req now =
      (.conflictResp (ns.filter (fun n => (allNumbers led).contains n)), led) ∧
    (∀ n : Int, n ∈ ns.filter (fun n => (allNumbers led).contains n) ↔
      n ∈ ns ∧ n ∈ (getState led).takenNumbers) ∧
    getState (recordDonation led req now).2 = getState led := by
  have hpos' : ¬ a ≤ 0 := not_le.mpr hpos
  have hdn' : (req.donorName == "") = false := beq_eq_false_iff_ne.mpr hdn
  have hdp' : (req.donorPhone == "") = false := beq_eq_false_iff_ne.mpr hdp
  have hda' : (req.donorAddress == "") = false := beq_eq_false_iff_ne.mpr hda
  have hc : (ns.filter (fun n => (allNumbers led).contains n)).isEmpty = false := by
    obtain ⟨n, hmemns, hmemled⟩ := hconf
    refine List.isEmpty_eq_false.mpr (List.ne_nil_of_mem (a := n) ?_)
    exact List.mem_filter.mpr ⟨hmemns, List.elem_iff.mpr hmemled⟩
  have key : recordDonation led req now =
      (.conflictResp (ns.filter (fun n => (allNumbers led).contains n)), led) := by
    simp only [recordDonation, hnl, hne, ha, hm, hns]
    simp [hpos', hdn', hdp', hda', hc]
    exact hconf
  refine ⟨key, ?_, ?_⟩
  · intro n
    rw [List.mem_filter, show (getState led).takenNumbers = (allNumbers led).dedup from rfl,
      List.mem_dedup]
    exact and_congr_right (fun _ => ⟨fun h => List.elem_iff.mp h, fun h => List.elem_iff.mpr h⟩)
  · rw [key]

theorem recordDonation_conflict_spec_witness :
    recordDonation sampleLedger sampleReq 1 =
      (.conflictResp ([7, 9].filter (fun n => (allNumbers sampleLedger).contains n)),
       sampleLedger) :=
  (recordDonation_conflict_spec sampleLedger sampleReq 1 [.jint 7, .jint 9] [7, 9] 16
    rfl rfl rfl rfl (by decide) (by decide) (by decide) (by decide) (by decide)
    ⟨7, by decide, by decide⟩).1

/-! ### C10 -/

/-- C10: a single request whose numbers list repeats a not-yet-claimed
value passes validation and the conflict check (a submission never
conflicts with itself), is stored as one record with the duplicated
value kept as submitted, and afterwards `takenNumbers` of GET /api/state
contains each submitted value exactly once. -/
theorem recordDonation_duplicate_numbers_spec (led : Ledger) (req : DonationReq) (now : Nat)
    (ns : List Int) (a : Int)
    (hnl : req.numbers = some (ns.map JVal.jint)) (hne : ns ≠ [])
    (hfresh : ∀ n ∈ ns, n ∉ allNumbers led)
    (ha : req.amount = .jint a) (hpos : 0 < a) (hm : validMethod req.method = true)
    (hdn : req.donorName ≠ "") (hdp : req.donorPhone ≠ "") (hda : req.donorAddress ≠ "") :
    recordDonation led req now =
      (.created,
       { led with donations := led.donations ++
           [{ amount := a, numbers := ns, method := req.method,
              donor_name := req.donorName, donor_phone := req.donorPhone,
              donor_address := req.donorAddress, created_at := now }] }) ∧
    ∀ n ∈ ns,
      ((getState (recordDonation led req now).2).takenNumbers).count n = 1 := by
  have hpos' : ¬ a ≤ 0 := not_le.mpr hpos
  have hdn' : (req.donorName == "") = false := beq_eq_false_iff_ne.mpr hdn
  have hdp' : (req.donorPhone == "") = false := beq_eq_false_iff_ne.mpr hdp
  have hda' : (req.donorAddress == "") = false := beq_eq_false_iff_ne.mpr hda
  have hne' : (ns.map JVal.jint).isEmpty = false := by
    cases ns with
    | nil => exact absurd rfl hne
    | cons n ns => rfl
  have hcast : toIntList (ns.map JVal.jint) = some ns := toIntList_map_jint ns
  have hc : (ns.filter (fun n => (allNumbers led).contains n)).isEmpty = true := by
    rw [List.isEmpty_iff]
    exact List.filter_eq_nil_iff.mpr
      (fun n hn => by simpa [List.elem_iff] using hfresh n hn)
  have key : recordDonation led req now =
      (.created,
       { led with donations := led.donations ++
           [{ amount := a, numbers := ns, method := req.method,
              donor_name := req.donorName, donor_phone := req.donorPhone,
              donor_address := req.donorAddress, created_at := now }] }) := by
    simp only [recordDonation, hnl, hne', ha, hm, hcast]
    simp [hpos', hdn', hdp', hda', hc]
    exact hfresh
  refine ⟨key, ?_⟩
  intro n hn
  rw [key]
  have hmem : n ∈ allNumbers
      { led with donations := led.donations ++
          [{ amount := a, numbers := ns, method := req.method,
             donor_name := req.donorName, donor_phone := req.donorPhone,
             donor_address := req.donorAddress, created_at := now }] } := by
    simp [allNumbers, hn]
  exact List.count_eq_one_of_mem (List.nodup_dedup _) (List.mem_dedup.mpr hmem)

theorem recordDonation_duplicate_numbers_spec_witness :
    ((getState (recordDonation { donations := [], settings := none }
      { amount := .jint 14, numbers := some (List.map JVal.jint [7, 7]),
        method := "venmo", donorName := "A", donorPhone := "1",
        donorAddress := "X" } 0).2).takenNumbers).count 7 = 1 :=
  (recordDonation_duplicate_numbers_spec { donations := [], settings := none }
    { amount := .jint 14, numbers := some (List.map JVal.jint [7, 7]),
      method := "venmo", donorName := "A", donorPhone := "1", donorAddress := "X" }
    0 [7, 7] 14 rfl (by decide) (by decide) rfl (by decide) (by decide)
    (by decide) (by decide) (by decide)).2 7 (by decide)

/-! ### C5 -/

/-- C5: POST /api/donations validates in the fixed source order numbers,
amount, method, donor fields, first failure winning: with every earlier
check passing, a failing numbers check yields the numbers 400, a
non-positive or non-integer amount the amount 400, a method outside the
whitelist the method 400, and an empty donor field the donor 400 — and
in each case the ledger is unchanged. -/
theorem recordDonation_validation_order (led : Ledger) (req : DonationReq) (now : Nat) :
    (numbersOk req = false →
      recordDonation led req now = (.badRequest "numbers[] required", led)) ∧
    (numbersOk req = true → amountOk req = false →
      recordDonation led req now = (.badRequest "invalid amount", led)) ∧
    (numbersOk req = true → amountOk req = true → validMethod req.method = false →
      recordDonation led req now = (.badRequest "invalid method", led)) ∧
    (numbersOk req = true → amountOk req = true → validMethod req.method = true →
      donorOk req = false →
      recordDonation led req now = (.badRequest "donor info required", led)) := by
  refine ⟨?_, ?_, ?_, ?_⟩
  · cases hnl : req.numbers with
    | none => intro _; simp [recordDonation, hnl]
    | some nl =>
      intro h
      simp only [numbersOk, hnl, Bool.not_eq_false'] at h
      simp [recordDonation, hnl, h]
  · cases hnl : req.numbers with
    | none => intro h; simp [numbersOk, hnl] at h
    | some nl =>
      intro h1 h2
      simp only [numbersOk, hnl, Bool.not_eq_true'] at h1
      cases ha : req.amount with
      | jnonint tag => simp [recordDonation, hnl, h1, ha]
      | jint a =>
        simp only [amountOk, ha, decide_eq_false_iff_not, not_lt] at h2
        simp [recordDonation, hnl, h1, ha, h2]
  · cases hnl : req.numbers with
    | none => intro h; simp [numbersOk, hnl] at h
    | some nl =>
      intro h1 h2 h3
      simp only [numbersOk, hnl, Bool.not_eq_true'] at h1
      cases ha : req.amount with
      | jnonint tag => simp [amountOk, ha] at h2
      | jint a =>
        simp only [amountOk, ha, decide_eq_true_eq] at h2
        have ha' : ¬ a ≤ 0 := not_le.mpr h2
        simp [recordDonation, hnl, h1, ha, ha', h3]
  · cases hnl : req.numbers with
    | none => intro h; simp [numbersOk, hnl] at h
    | some nl =>
      intro h1 h2 h3 h4
      simp only [numbersOk, hnl, Bool.not_eq_true'] at h1
      cases ha : req.amount with
      | jnonint tag => simp [amountOk, ha] at h2
      | jint a =>
        simp only [amountOk, ha, decide_eq_true_eq] at h2
        have ha' : ¬ a ≤ 0 := not_le.mpr h2
        simp only [donorOk, Bool.not_eq_true', Bool.not_eq_false'] at h4
        simp [recordDonation, hnl, h1, ha, ha', h3, h4]

theorem recordDonation_validation_order_witness :
    recordDonation emptyLedger badAmountReq 0 =
      (.badRequest "invalid amount", emptyLedger) :=
  (recordDonation_validation_order emptyLedger badAmountReq 0).2.1 (by decide) (by decide)

/-! ### C3 -/

/-- C3 counterexample: a request whose non-empty numbers array holds a
non-integer element is not rejected with a 400 validation error — it
passes the line-106 check (which only tests for a non-empty array) and
the conflict query then throws on the int[] cast, so the response is the
generic 500 of the error handler, not a 400. -/
theorem recordDonation_nonint_element_counterexample :
    recordDonation emptyLedger nonIntReq 0 = (.serverError, emptyLedger) ∧
    DonationResult.isBadRequest (recordDonation emptyLedger nonIntReq 0).1 = false := by
  decide

/-- C3 amended: POST /api/donations rejects with the numbers 400 exactly
when the numbers field is not a non-empty array, writing nothing; a
non-empty array containing a non-integer element instead passes all
validation (when the other fields are valid) and surfaces as a 500 store
error from the conflict query int cast, also writing nothing. -/
theorem recordDonation_numbers_check_spec (led : Ledger) (req : DonationReq) (now : Nat) :
    (numbersOk req = false →
      recordDonation led req now = (.badRequest "numbers[] required", led)) ∧
    (∀ nl, req.numbers = some nl → nl.isEmpty = false → toIntList nl = none →
      amountOk req = true → validMethod req.method = true → donorOk req = true →
      recordDonation led req now = (.serverError, led)) := by
  constructor
  · cases hnl : req.numbers with
    | none => intro _; simp [recordDonation, hnl]
    | some nl =>
      intro h
      simp only [numbersOk, hnl, Bool.not_eq_false'] at h
      simp [recordDonation, hnl, h]
  · intro nl hnl hne hcast h2 h3 h4
    cases ha : req.amount with
    | jnonint tag => simp [amountOk, ha] at h2
    | jint a =>
      simp only [amountOk, ha, decide_eq_true_eq] at h2
      have ha' : ¬ a ≤ 0 := not_le.mpr h2
      simp only [donorOk, Bool.not_eq_true', Bool.or_eq_false_iff] at h4
      obtain ⟨⟨hd1, hd2⟩, hd3⟩ := h4
      simp [recordDonation, hnl, hne, ha, ha', h3, hd1, hd2, hd3, hcast]

theorem recordDonation_numbers_check_spec_witness :
    recordDonation emptyLedger nonIntReq 0 = (.serverError, emptyLedger) :=
  (recordDonation_numbers_check_spec emptyLedger nonIntReq 0).2
    [.jint 2, .jnonint "two-point-five"] rfl (by decide) (by decide) (by decide)
    (by decide) (by decide)

/-! ### C4 -/

/-- C4 counterexample: POST /api/donations never checks the [1,80]
range; a well-formed request claiming 999 is accepted with 201 and the
stored record carries 999, which is outside [1,80]. -/
theorem recordDonation_range_counterexample :
    (recordDonation emptyLedger bigNumReq 0).1 = .created ∧
    allNumbers (recordDonation emptyLedger bigNumReq 0).2 = [999] ∧
    ¬ ((1 : Int) ≤ 999 ∧ (999 : Int) ≤ 80) := by
  decide

theorem recordDonation_donations_shape (led : Ledger) (req : DonationReq) (now : Nat) :
    (recordDonation led req now).2.donations = led.donations ∨
    ∃ d, (recordDonation led req now).2.donations = led.donations ++ [d] ∧ d.numbers ≠ [] := by
  unfold recordDonation
  repeat' split
  on_goal 8 =>
    rename_i nl hnlEq hnem xa a haEq hle hmv hdv xo ns hcast
    have hne' : nl ≠ [] := by
      intro h
      rw [h] at hnem
      exact hnem rfl
    have hlen : ns.length = nl.length := toIntList_length nl ns hcast
    have hns : ns ≠ [] := by
      intro h
      rw [h] at hlen
      exact hne' (List.eq_nil_of_length_eq_zero hlen.symm)
    by_cases hc : (List.filter (fun n => (allNumbers led).contains n) ns).isEmpty = true
    · simp only [hc, if_true]
      exact .inr ⟨_, rfl, hns⟩
    · simp only [Bool.not_eq_true] at hc
      have hnall : ¬ ∀ x ∈ ns, x ∉ allNumbers led := by
        obtain ⟨x, hx⟩ := List.exists_mem_of_ne_nil _ (List.isEmpty_eq_false.mp hc)
        obtain ⟨hx1, hx2⟩ := List.mem_filter.mp hx
        intro hall
        exact hall x hx1 (List.elem_iff.mp hx2)
      simp [hnall]
  all_goals exact Or.inl rfl

/-- C4 amended: every record stored by POST /api/donations has a
non-empty numbers list (of integers, by construction of the ledger
model); the server performs no [1,80] range check, so stored numbers may
lie outside that range (the grid bound is enforced only client-side). -/
theorem recordDonation_nonempty_invariant (reqs : List (DonationReq × Nat)) (led : Ledger)
    (h : ∀ d ∈ led.donations, d.numbers ≠ []) :
    ∀ d ∈ (runDonations reqs led).donations, d.numbers ≠ [] := by
  induction reqs generalizing led with
  | nil => exact h
  | cons rn reqs ih =>
    refine ih (recordDonation led rn.1 rn.2).2 ?_
    rcases recordDonation_donations_shape led rn.1 rn.2 with heq | ⟨d, heq, hd⟩
    · rw [heq]; exact h
    · rw [heq]
      intro e he
      rcases List.mem_append.mp he with h1 | h2
      · exact h e h1
      · rw [List.mem_singleton.mp h2]; exact hd

theorem recordDonation_nonempty_invariant_witness :
    ({ amount := 999, numbers := [999], method := "venmo", donor_name := "A",
       donor_phone := "1", donor_address := "X", created_at := 0 } : Donation).numbers ≠ [] :=
  recordDonation_nonempty_invariant [(bigNumReq, 0), (sampleReq, 1)] emptyLedger
    (by decide)
    { amount := 999, numbers := [999], method := "venmo", donor_name := "A",
      donor_phone := "1", donor_address := "X", created_at := 0 }
    (by decide)

/-! ### C6 -/

/-- C6 counterexample: the goal string 0 parses as the integer 0
(parseInt does not yield NaN), yet the stored goal becomes the default
3500 because `parseInt(goal, 10) || 3500` treats the parsed 0 as falsy;
so the default is not taken exactly when the goal is unparsable. -/
theorem updateState_goal_zero_counterexample :
    jsParseInt "0" = some 0 ∧
    (updateState "k" goalZeroReq settingsLedger).2.settings =
      some { goal := 3500, bio := "b" } := by
  decide

/-- C6 amended: for an authenticated update carrying a goal field, the
stored goal equals the parseInt result when that is a nonzero integer,
and equals the default 3500 when parseInt yields NaN or 0 (both falsy
in the `parseInt(goal, 10) || 3500` fallback). -/
theorem updateState_goal_spec (secret : String) (req : AdminStateReq) (led : Ledger)
    (s : Settings) (g : String)
    (hauth : isAuthed secret req.key = true)
    (hst : led.settings = some s) (hg : req.goal = some g) :
    (∀ n : Int, jsParseInt g = some n → n ≠ 0 →
      (updateState secret req led).2.settings.map Settings.goal = some n) ∧
    ((jsParseInt g = none ∨ jsParseInt g = some 0) →
      (updateState secret req led).2.settings.map Settings.goal = some 3500) := by
  have hgoal : ∀ b : Settings,
      (updateState secret req led).2.settings.map Settings.goal = some (goalOrDefault g) := by
    intro _
    cases hb : req.bio with
    | none => simp [updateState, hauth, hb, hg, hst]
    | some b => simp [updateState, hauth, hb, hg, hst]
  constructor
  · intro n hn hn0
    rw [hgoal s]
    simp [goalOrDefault, hn, hn0]
  · intro h
    rw [hgoal s]
    rcases h with h | h <;> simp [goalOrDefault, h]

theorem updateState_goal_spec_witness :
    (updateState "k" { key := some "k", bio := none, goal := some "12" }
      settingsLedger).2.settings.map Settings.goal = some 12 :=
  (updateState_goal_spec "k" { key := some "k", bio := none, goal := some "12" }
    settingsLedger { goal := 100, bio := "b" } "12" (by decide) rfl rfl).1
    12 (by decide) (by decide)

/-! ### C7 -/

/-- C7: an authenticated admin update carrying only a bio leaves the
stored goal unchanged and the next GET /api/state returns the new bio;
one carrying only a goal leaves the stored bio unchanged. -/
theorem updateState_frame_spec (secret : String) (k : Option String) (led : Ledger)
    (s : Settings) (b g : String)
    (hauth : isAuthed secret k = true) (hst : led.settings = some s) :
    (updateState secret { key := k, bio := some b, goal := none } led).2.settings =
      some { goal := s.goal, bio := b } ∧
    (getState (updateState secret { key := k, bio := some b, goal := none } led).2).bio = b ∧
    (getState (updateState secret { key := k, bio := some b, goal := none } led).2).goal =
      s.goal ∧
    (updateState secret { key := k, bio := none, goal := some g } led).2.settings.map
      Settings.bio = some s.bio := by
  refine ⟨?_, ?_, ?_, ?_⟩ <;> simp [updateState, hauth, hst, getState]

theorem updateState_frame_spec_witness :
    (getState (updateState "k" { key := some "k", bio := some "new", goal := none }
      settingsLedger).2).bio = "new" :=
  (updateState_frame_spec "k" (some "k") settingsLedger { goal := 100, bio := "b" }
    "new" "7" (by decide) rfl).2.1

/-! ### C8 -/

/-- C8 counterexample: with an empty configured secret, a request with
no `x-admin-key` header authenticates (the absent header is coerced to
the empty string, which compares equal), so it does not receive 401 and
it does modify stored state — contradicting the claim that any request
with a missing header receives 401 and modifies nothing. -/
theorem isAuthed_empty_secret_counterexample :
    isAuthed "" none = true ∧
    (updateState "" { key := none, bio := some "x", goal := none } settingsLedger).1 =
      .ok ∧
    (updateState "" { key := none, bio := some "x", goal := none } settingsLedger).2 ≠
      settingsLedger := by
  decide

/-- C8 amended: for both admin operations, authentication succeeds
exactly when the `x-admin-key` header, with a missing header coerced to
the empty string, equals the configured secret by exact string
comparison; failed authentication yields 401 and modifies no stored
state, and whenever the configured secret is non-empty a missing header
always fails. -/
theorem admin_auth_spec (secret : String) (k : Option String) (req : AdminStateReq)
    (led : Ledger) (hk : req.key = k) :
    (isAuthed secret k = true ↔ k.getD "" = secret) ∧
    (isAuthed secret k = false →
      updateState secret req led = (.unauthorized, led) ∧
      exportCsv secret k led = .unauthorized) ∧
    (secret ≠ "" → k = none → isAuthed secret k = false) := by
  refine ⟨?_, ?_, ?_⟩
  · rw [show isAuthed secret k = (k.getD "" == secret) from rfl]
    exact beq_iff_eq
  · intro h
    constructor
    · simp [updateState, hk, h]
    · simp [exportCsv, h]
  · intro hs hn
    subst hn
    exact beq_eq_false_iff_ne.mpr (fun h => hs h.symm)

theorem admin_auth_spec_witness :
    updateState "sek" { key := none, bio := some "x", goal := none } settingsLedger =
      (.unauthorized, settingsLedger) :=
  ((admin_auth_spec "sek" none { key := none, bio := some "x", goal := none }
    settingsLedger rfl).2.1 (by decide)).1

/-! ### C9 -/

/-- C9: an authenticated CSV export returns the header row followed by
exactly one row per stored donation record, ordered by id descending,
each data row holding the fields in the fixed column order id, amount,
numbers, method, donor name, donor phone, donor address, created_at
(the column order of `csvRow` and `csvHeader`). -/
theorem exportCsv_spec (secret : String) (k : Option String) (led : Ledger)
    (h : isAuthed secret k = true) :
    exportCsv secret k led = .csv (csvRows led) ∧
    (csvRows led).length = led.donations.length + 1 ∧
    (csvRows led).head? = some csvHeader ∧
    ∀ i, i < led.donations.length →
      ((csvRows led).drop 1)[i]? =
        (led.donations[led.donations.length - 1 - i]?).map
          (fun d => csvRow (led.donations.length - i) d) := by
  refine ⟨by simp [exportCsv, h], by simp [csvRows], rfl, ?_⟩
  intro i hi
  have hlen2 : ((led.donations.enumFrom 1).map (fun p => csvRow p.1 p.2)).length =
      led.donations.length := by simp
  have hi' : i < ((led.donations.enumFrom 1).map (fun p => csvRow p.1 p.2)).length := by
    rw [hlen2]
    exact hi
  rw [show (csvRows led).drop 1 =
      ((led.donations.enumFrom 1).map (fun p => csvRow p.1 p.2)).reverse from rfl,
    List.getElem?_reverse hi', hlen2, List.getElem?_map, List.getElem?_enumFrom]
  have harith : 1 + (led.donations.length - 1 - i) = led.donations.length - i := by
    omega
  simp only [harith]
  cases hj : led.donations[led.donations.length - 1 - i]? <;> rfl

theorem exportCsv_spec_witness :
    exportCsv "k" (some "k") sampleLedger = .csv (csvRows sampleLedger) :=
  (exportCsv_spec "k" (some "k") sampleLedger (by decide)).1
